import Mathlib

/-!
Verification of the quantara route-resilience scoring pipeline.

The Python sources under `ml_module/` are shallowly embedded here:
floats become exact rationals (`ℚ`), Python dicts become association
lists (`List (String × ℚ)`), and the network-facing parts (weather
fetch, road-network lookup, haversine trigonometry) are abstracted as
function parameters, since no claim concerns their numeric output.
-/

/-- Lookup in an association list modelling `dict.get(key, default)`. -/
def dictGet (d : List (String × ℚ)) (k : String) (default : ℚ) : ℚ :=
  match d.find? (fun kv => kv.1 == k) with
  | some kv => kv.2
  | none => default

/-- Membership of a key, modelling `key in dict` / presence of the key. -/
def dictHasKey (d : List (String × ℚ)) (k : String) : Bool :=
  (d.find? (fun kv => kv.1 == k)).isSome

/-- Clamp `max(0.0, min(1.0, x))` as written throughout the analyzers. -/
def clamp01 (x : ℚ) : ℚ := max 0 (min 1 x)

/-- Clamp `max(0.0, min(100.0, x))` as written in the resilience calculator. -/
def clamp0100 (x : ℚ) : ℚ := max 0 (min 100 x)

/-! ## ResilienceCalculator (ml_module/scoring/resilience_calculator.py) -/

/-- Python `sum(priorities.values())`. -/
def prioritySum (p : List (String × ℚ)) : ℚ := (p.map Prod.snd).sum

/-- The equal-weight fallback dict substituted when the sum is 0. -/
def equalPriorities : List (String × ℚ) :=
  [("time", 1/4), ("distance", 1/4), ("carbon_emission", 1/4), ("road_quality", 1/4)]

/-- The priority pre-processing at the top of `ResilienceCalculator.calculate`:
if the values sum to 0, substitute equal weights; otherwise divide every
value by the sum, but only when `abs(total - 1.0) > 0.01`. -/
def normalizePriorities (p : List (String × ℚ)) : List (String × ℚ) :=
  let total := prioritySum p
  if total = 0 then equalPriorities
  else if |total - 1| > 1/100 then p.map (fun kv => (kv.1, kv.2 / total))
  else p

/-- One entry of the list returned by `ResilienceCalculator.calculate`. -/
structure RouteScore where
  route_name : String
  overall_resilience_score : ℚ
  time_score : ℚ
  distance_score : ℚ
  carbon_score : ℚ
  road_quality_score : ℚ
  time_contribution : ℚ
  distance_contribution : ℚ
  carbon_contribution : ℚ
  road_contribution : ℚ
  deriving Repr, DecidableEq

/-- The per-route body of the loop in `ResilienceCalculator.calculate`. -/
def scoreRoute (time_priority distance_priority carbon_priority road_priority : ℚ)
    (time_scores distance_scores carbon_scores road_quality_scores : List (String × ℚ))
    (route_name : String) : RouteScore :=
  let time_score := dictGet time_scores route_name (1/2)
  let distance_score := dictGet distance_scores route_name (1/2)
  let carbon_score := dictGet carbon_scores route_name (1/2)
  let road_quality_score := dictGet road_quality_scores route_name (1/2)
  let time_contribution := time_priority * time_score
  let distance_contribution := distance_priority * distance_score
  let carbon_contribution := carbon_priority * carbon_score
  let road_contribution := road_priority * road_quality_score
  let resilience_score :=
    time_contribution + distance_contribution + carbon_contribution + road_contribution
  { route_name := route_name
    overall_resilience_score := clamp0100 (resilience_score * 100)
    time_score := time_score
    distance_score := distance_score
    carbon_score := carbon_score
    road_quality_score := road_quality_score
    time_contribution := time_contribution
    distance_contribution := distance_contribution
    carbon_contribution := carbon_contribution
    road_contribution := road_contribution }

/-- Descending comparison used by `results.sort(key=..., reverse=True)`:
Python's sort is stable, and with `reverse=True` it orders by the key
descending while equal keys keep their input order, i.e. a stable merge
sort under `b.score ≤ a.score`. -/
def scoreGE (a b : RouteScore) : Bool :=
  b.overall_resilience_score ≤ a.overall_resilience_score

/-- Embedding of `ResilienceCalculator.calculate`. -/
def calculate (routes : List String)
    (time_scores distance_scores carbon_scores road_quality_scores : List (String × ℚ))
    (priorities : List (String × ℚ)) : List RouteScore :=
  let p := normalizePriorities priorities
  let time_priority := dictGet p "time" (1/4)
  let distance_priority := dictGet p "distance" (1/4)
  let carbon_priority := dictGet p "carbon_emission" (1/4)
  let road_priority := dictGet p "road_quality" (1/4)
  let results := routes.map
    (scoreRoute time_priority distance_priority carbon_priority road_priority
      time_scores distance_scores carbon_scores road_quality_scores)
  results.mergeSort scoreGE

/-- Concrete priority dict whose values sum to 1.005: inside the 0.01
dead zone of the normalization check, so the code leaves it unchanged. -/
def cexPriorities : List (String × ℚ) :=
  [("time", 201/200), ("distance", 0), ("carbon_emission", 0), ("road_quality", 0)]

/-- The loop body of `ResilienceCalculator.calculate` with the four applied
weights extracted exactly as lines 74-77 of the source do (dict lookups on
the pre-processed priorities, defaulting each missing key to 0.25). -/
def appliedScore (ts ds cs rs p : List (String × ℚ)) (name : String) : RouteScore :=
  let np := normalizePriorities p
  scoreRoute (dictGet np "time" (1/4)) (dictGet np "distance" (1/4))
    (dictGet np "carbon_emission" (1/4)) (dictGet np "road_quality" (1/4))
    ts ds cs rs name

/-! ## Time and Distance analyzers
(ml_module/analysis/time_analysis.py, distance_analysis.py) -/

/-- Python `min(list)` on a non-empty list; 0 on the empty list (the
analyzers only call it on non-empty batches). -/
def listMin : List ℚ → ℚ
  | [] => 0
  | x :: xs => xs.foldl min x

/-- Python `max(list)` on a non-empty list; 0 on the empty list. -/
def listMax : List ℚ → ℚ
  | [] => 0
  | x :: xs => xs.foldl max x

/-- Input route as consumed by `TimeAnalyzer.analyze`: the dict fields the
analyzer reads, with `duration_s` optional (`route.get("duration_s", 0)`).
The presentation-only `duration_text` formatting is not modelled. -/
structure TimeRoute where
  route_name : String
  duration_s : Option ℚ
  deriving Repr, DecidableEq

/-- Output entry of `TimeAnalyzer.analyze`. -/
structure TimeResult where
  route_name : String
  duration_s : ℚ
  time_score : ℚ
  deriving Repr, DecidableEq

/-- Embedding of `TimeAnalyzer.analyze`. -/
def timeAnalyze (routes : List TimeRoute) : List TimeResult :=
  match routes with
  | [] => []
  | _ =>
    let durations := routes.map (fun r => r.duration_s.getD 0)
    let time_min := listMin durations
    let time_max := listMax durations
    routes.map (fun r =>
      let duration_s := r.duration_s.getD 0
      let raw :=
        if time_max = time_min then 1
        else 1 - (duration_s - time_min) / (time_max - time_min)
      { route_name := r.route_name
        duration_s := duration_s
        time_score := clamp01 raw })

/-- Input route as consumed by `DistanceAnalyzer.analyze`. -/
structure DistRoute where
  route_name : String
  distance_m : Option ℚ
  deriving Repr, DecidableEq

/-- Output entry of `DistanceAnalyzer.analyze`. -/
structure DistResult where
  route_name : String
  distance_m : ℚ
  distance_km : ℚ
  distance_score : ℚ
  deriving Repr, DecidableEq

/-- Embedding of `DistanceAnalyzer.analyze`. -/
def distanceAnalyze (routes : List DistRoute) : List DistResult :=
  match routes with
  | [] => []
  | _ =>
    let distances := routes.map (fun r => r.distance_m.getD 0)
    let dist_min := listMin distances
    let dist_max := listMax distances
    routes.map (fun r =>
      let distance_m := r.distance_m.getD 0
      let raw :=
        if dist_max = dist_min then 1
        else 1 - (distance_m - dist_min) / (dist_max - dist_min)
      { route_name := r.route_name
        distance_m := distance_m
        distance_km := distance_m / 1000
        distance_score := clamp01 raw })

/-! ## Segmenter (ml_module/analysis/segmentation.py)

`haversine_distance` is floating-point trigonometry; no claim concerns
its numeric value, so `extract_segments` is parametrised by an abstract
distance function `dist lat1 lon1 lat2 lon2`. -/

/-- A coordinate dict (`{"lat": ..., "lng": ...}`) whose entries may be
missing; `loc.get("lat", 0)` is modelled by `Option.getD 0`. -/
structure Loc where
  lat : Option ℚ
  lng : Option ℚ
  deriving Repr, DecidableEq

/-- One directional step of a route. `none` for a location models
`step.get("start_location", {})` yielding a missing or empty dict (an
empty dict is falsy, so `if not start_loc: continue` fires on it). -/
structure Step where
  start_location : Option Loc
  end_location : Option Loc
  deriving Repr, DecidableEq

/-- Route geometry as consumed by `extract_segments`. -/
structure RouteGeom where
  steps : List Step
  deriving Repr, DecidableEq

/-- One extracted segment. -/
structure Segment where
  segment_id : ℕ
  seg_start : ℚ × ℚ
  seg_stop : ℚ × ℚ
  length_m : ℚ
  deriving Repr, DecidableEq

/-- The per-step keep condition of the loop in `extract_segments`: both
location dicts truthy and none of the four looked-up coordinates equal
to 0 (a missing `lat`/`lng` defaults to 0 and is caught by the same
check). -/
def keepStep (st : Step) : Bool :=
  match st.start_location, st.end_location with
  | some sl, some el =>
    ¬(sl.lat.getD 0 = 0 ∨ sl.lng.getD 0 = 0 ∨ el.lat.getD 0 = 0 ∨ el.lng.getD 0 = 0)
  | _, _ => false

/-- The loop of `extract_segments`, carrying the running `segment_id`. -/
def extractLoop (dist : ℚ → ℚ → ℚ → ℚ → ℚ) : List Step → ℕ → List Segment
  | [], _ => []
  | st :: rest, segment_id =>
    match st.start_location, st.end_location with
    | some sl, some el =>
      let start_lat := sl.lat.getD 0
      let start_lon := sl.lng.getD 0
      let end_lat := el.lat.getD 0
      let end_lon := el.lng.getD 0
      if start_lat = 0 ∨ start_lon = 0 ∨ end_lat = 0 ∨ end_lon = 0 then
        extractLoop dist rest segment_id
      else
        { segment_id := segment_id
          seg_start := (start_lat, start_lon)
          seg_stop := (end_lat, end_lon)
          length_m := dist start_lat start_lon end_lat end_lon }
          :: extractLoop dist rest (segment_id + 1)
    | _, _ => extractLoop dist rest segment_id

/-- Embedding of `extract_segments` (segment list only; the max/min length return
values are not touched by any claim). -/
def extract_segments (dist : ℚ → ℚ → ℚ → ℚ → ℚ) (route : RouteGeom) : List Segment :=
  extractLoop dist route.steps 0

/-- A one-step route whose start `(10, 0)` and end `(10, 1)` coordinates
are both present and different from `(0, 0)`, yet whose start longitude
is 0, so the source skips the step. -/
def cexRoute : RouteGeom :=
  { steps := [{ start_location := some { lat := some 10, lng := some 0 }
                end_location := some { lat := some 10, lng := some 1 } }] }

/-! ## RoadAnalyzer (ml_module/analysis/road_analysis.py)

The OSMnx-backed road-type lookup is an unavailable-by-default network
collaborator; the claims concern the length-based fallback
(`_estimate_road_type`) and the quality aggregation
(`_calculate_road_quality`, `_create_default_result`). -/

/-- Embedding of `RoadAnalyzer._estimate_road_type`. -/
def estimate_road_type (length_m : ℚ) : String :=
  if length_m > 10000 then "motorway"
  else if length_m > 5000 then "primary"
  else if length_m > 2000 then "secondary"
  else "tertiary"

/-- Lookup `RoadAnalyzer.QUALITY_SCORES.get(road_type, 50)` as used in
`_analyze_road_types`. -/
def qualityScore (road_type : String) : ℚ :=
  dictGet
    [("motorway", 90), ("trunk", 85), ("primary", 80), ("secondary", 70),
     ("tertiary", 60), ("residential", 50), ("service", 40),
     ("unclassified", 45), ("unknown", 50)] road_type 50

/-- A segment after `_analyze_road_types`: the fields
`_calculate_road_quality` reads. -/
structure RoadSegment where
  length_m : ℚ
  road_type : String
  base_quality : ℚ
  deriving Repr, DecidableEq

/-- The fields of a weather analysis result that `_calculate_road_quality`
reads (`weather_data.get("avg_weather_risk", 0.0)`); in our model the
field is always present on a constructed result. -/
structure WeatherSummary where
  avg_weather_risk : ℚ
  deriving Repr, DecidableEq

/-- Result of the road-quality aggregation (the claim-relevant fields). -/
structure RoadResult where
  route_name : String
  road_segments : List RoadSegment
  road_quality_score : ℚ
  avg_weather_risk : ℚ
  deriving Repr, DecidableEq

/-- The accumulation loop of `_calculate_road_quality`:
`weighted_quality += max(0, base_quality - avg_weather_risk*100) * length`. -/
def weightedQuality (segments : List RoadSegment) (avg_weather_risk : ℚ) : ℚ :=
  segments.foldl
    (fun acc seg => acc + max 0 (seg.base_quality - avg_weather_risk * 100) * seg.length_m)
    0

/-- Python `sum(seg["length_m"] for seg in segments)`. -/
def totalLength (segments : List RoadSegment) : ℚ :=
  (segments.map RoadSegment.length_m).sum

/-- Embedding of `RoadAnalyzer._calculate_road_quality` (road-type distribution and
per-segment weather echo omitted: presentation only). -/
def calculate_road_quality (route_name : String) (segments : List RoadSegment)
    (weather_data : Option WeatherSummary) : RoadResult :=
  let avg_weather_risk :=
    match weather_data with
    | some w => w.avg_weather_risk
    | none => 0
  let total_length := totalLength segments
  let weighted_quality := weightedQuality segments avg_weather_risk
  let road_quality_score :=
    if total_length > 0 then weighted_quality / total_length / 100 else 1/2
  { route_name := route_name
    road_segments := segments
    road_quality_score := clamp01 road_quality_score
    avg_weather_risk := avg_weather_risk }

/-- Embedding of `RoadAnalyzer._create_default_result`. -/
def create_default_result (route_name : String) : RoadResult :=
  { route_name := route_name
    road_segments := []
    road_quality_score := 1/2
    avg_weather_risk := 1/2 }

/-- The per-route dispatch inside `RoadAnalyzer.analyze`: an empty segment
list yields the default result, otherwise the quality aggregation runs on
the (already road-typed) segments. -/
def analyzeRoadRoute (route_name : String) (segments : List RoadSegment)
    (weather_data : Option WeatherSummary) : RoadResult :=
  if segments = [] then create_default_result route_name
  else calculate_road_quality route_name segments weather_data

/-! ## WeatherAnalyzer (ml_module/analysis/weather_analysis.py)

`_fetch_weather_open_meteo` is a network call; `analyze` is parametrised
by an abstract `fetch : ℚ × ℚ → Weather`. -/

/-- One weather sample as returned by the fetch (coordinates and
`sample_id` bookkeeping omitted). -/
structure Weather where
  rainfall_mm : ℚ
  visibility_m : ℚ
  windspeed : ℚ
  temperature : ℚ
  cloudcover : ℚ
  deriving Repr, DecidableEq

/-- Result of `WeatherAnalyzer.analyze`. -/
structure WeatherResult where
  weather_data : List Weather
  avg_rainfall : ℚ
  avg_windspeed : ℚ
  avg_visibility : ℚ
  avg_temperature : ℚ
  avg_cloudcover : ℤ
  visibility_risk : ℚ
  rain_risk : ℚ
  wind_risk : ℚ
  avg_weather_risk : ℚ
  deriving Repr, DecidableEq

/-- A segment as read by the weather sampler (`start`, `end`, `length_m`). -/
structure WSeg where
  ws_start : ℚ × ℚ
  ws_stop : ℚ × ℚ
  length_m : ℚ
  deriving Repr, DecidableEq

/-- Python `int(q)`: truncation toward zero. -/
def pyInt (q : ℚ) : ℤ :=
  if 0 ≤ q then ⌊q⌋ else -⌊-q⌋

/-- Midpoint of a segment: the average of its start and end latitude and
longitude. -/
def segMidpoint (seg : WSeg) : ℚ × ℚ :=
  ((seg.ws_start.1 + seg.ws_stop.1) / 2, (seg.ws_start.2 + seg.ws_stop.2) / 2)

/-- Python `sum(seg["length_m"] for seg in segments)` on weather segments. -/
def wTotalLength (segments : List WSeg) : ℚ :=
  (segments.map WSeg.length_m).sum

/-- Computation `num_samples = max(1, int(total_distance_km / 50.0))` from
`WeatherAnalyzer.analyze`. -/
def numSamples (segments : List WSeg) : ℕ :=
  max 1 (pyInt (wTotalLength segments / 1000 / 50)).toNat

/-- The inner `while` of `_get_sample_coordinates`: emit interpolated
points within one segment while the target distance falls inside it and
fewer than `num_samples` points exist overall. `remaining` counts the
samples still allowed; the returned rational is the updated target. -/
def sampleWithin (seg : WSeg) (interval current : ℚ) :
    ℚ → ℕ → List (ℚ × ℚ) × ℚ
  | target, 0 => ([], target)
  | target, remaining + 1 =>
    if target ≤ current + seg.length_m then
      let offset := target - current
      let frac := if seg.length_m > 0 then offset / seg.length_m else 0
      let lat := seg.ws_start.1 + frac * (seg.ws_stop.1 - seg.ws_start.1)
      let lon := seg.ws_start.2 + frac * (seg.ws_stop.2 - seg.ws_start.2)
      let next := sampleWithin seg interval current (target + interval) remaining
      ((lat, lon) :: next.1, next.2)
    else ([], target)

/-- The outer `for segment in segments` walk of `_get_sample_coordinates`. -/
def sampleWalk (interval : ℚ) : List WSeg → ℚ → ℚ → ℕ → List (ℚ × ℚ)
  | [], _, _, _ => []
  | seg :: rest, current, target, remaining =>
    let step := sampleWithin seg interval current target remaining
    step.1 ++ sampleWalk interval rest (current + seg.length_m)
      step.2 (remaining - step.1.length)

/-- Embedding of `WeatherAnalyzer._get_sample_coordinates`; `none` models the
`IndexError` Python raises at `segments[len(segments) // 2]` when the
segment list is empty (a path `analyze` never takes). -/
def get_sample_coordinates (segments : List WSeg) (num_samples : ℕ) :
    Option (List (ℚ × ℚ)) :=
  if num_samples ≤ 1 then
    match segments.get? (segments.length / 2) with
    | some mid_seg => some [segMidpoint mid_seg]
    | none => none
  else
    let total_length := wTotalLength segments
    let interval := total_length / (num_samples - 1 : ℕ)
    some (sampleWalk interval segments 0 0 num_samples)

/-- Mean of a list of rationals mapped through `f` (`sum(...) / len(...)`). -/
def meanBy (f : Weather → ℚ) (l : List Weather) : ℚ :=
  (l.map f).sum / l.length

/-- Embedding of `WeatherAnalyzer._create_default_result`. -/
def weatherDefaultResult : WeatherResult :=
  { weather_data := []
    avg_rainfall := 0
    avg_windspeed := 5
    avg_visibility := 10000
    avg_temperature := 20
    avg_cloudcover := 30
    visibility_risk := 0
    rain_risk := 0
    wind_risk := 0
    avg_weather_risk := 0 }

/-- Embedding of `WeatherAnalyzer.analyze`, parametrised by the weather fetch. -/
def weatherAnalyze (fetch : ℚ × ℚ → Weather) (segments : List WSeg) :
    Option WeatherResult :=
  if segments = [] then some weatherDefaultResult
  else
    match get_sample_coordinates segments (numSamples segments) with
    | none => none
    | some sample_coords =>
      let weather_data := sample_coords.map fetch
      let avg_rainfall := meanBy Weather.rainfall_mm weather_data
      let avg_windspeed := meanBy Weather.windspeed weather_data
      let avg_visibility := meanBy Weather.visibility_m weather_data
      let avg_temperature := meanBy Weather.temperature weather_data
      let avg_cloudcover := pyInt (meanBy Weather.cloudcover weather_data)
      let visibility_risk := clamp01 (1 - avg_visibility / 10000)
      let rain_risk := min 1 (avg_rainfall / 50)
      let wind_risk := min 1 (avg_windspeed / 25)
      let avg_weather_risk := (visibility_risk + rain_risk + wind_risk) / 3
      some
        { weather_data := weather_data
          avg_rainfall := avg_rainfall
          avg_windspeed := avg_windspeed
          avg_visibility := avg_visibility
          avg_temperature := avg_temperature
          avg_cloudcover := avg_cloudcover
          visibility_risk := visibility_risk
          rain_risk := rain_risk
          wind_risk := wind_risk
          avg_weather_risk := avg_weather_risk }

/-! ## run_analysis entry point (ml_module/run_analysis.py) -/

/-- The structured result dict of `run_analysis` (claim-relevant fields:
`error`, `routes`, `analysis_complete`; route payloads abstracted to
their names). -/
structure AnalysisResult where
  error : Option String
  routes : List String
  analysis_complete : Bool
  deriving Repr, DecidableEq

/-- The dict built by the `except ValueError` handler of `run_analysis`. -/
def validationErrorResult (msg : String) : AnalysisResult :=
  { error := some ("Validation error: " ++ msg)
    routes := []
    analysis_complete := false }

/-- Embedding of `run_analysis`: validates the coordinates, then defers to
`RouteAnalysisSystem.analyze_routes` (abstracted as the total function
`analyze_routes`, collaborator exceptions being out of scope of the
validation claim). A raised `ValueError` and the `except` handler
returning the structured dict are modelled together as returning
`validationErrorResult`, making the function total: no exception
escapes. -/
def run_analysis (origin_lat origin_lng dest_lat dest_lng : ℚ)
    (analyze_routes : ℚ × ℚ → ℚ × ℚ → AnalysisResult) : AnalysisResult :=
  if ¬(-90 ≤ origin_lat ∧ origin_lat ≤ 90) ∨ ¬(-180 ≤ origin_lng ∧ origin_lng ≤ 180) then
    validationErrorResult "Invalid origin coordinates"
  else if ¬(-90 ≤ dest_lat ∧ dest_lat ≤ 90) ∨ ¬(-180 ≤ dest_lng ∧ dest_lng ≤ 180) then
    validationErrorResult "Invalid destination coordinates"
  else
    analyze_routes (origin_lat, origin_lng) (dest_lat, dest_lng)

/-! ## Helper lemmas -/

theorem dictGet_of_not_hasKey {d : List (String × ℚ)} {k : String}
    (h : dictHasKey d k = false) (v : ℚ) : dictGet d k v = v := by
  unfold dictGet
  unfold dictHasKey at h
  cases hf : d.find? (fun kv => kv.1 == k) with
  | none => rfl
  | some kv => rw [hf] at h; simp at h

theorem dictHasKey_map_snd (d : List (String × ℚ)) (k : String) (g : String × ℚ → ℚ) :
    dictHasKey (d.map (fun kv => (kv.1, g kv))) k = dictHasKey d k := by
  unfold dictHasKey
  rw [List.find?_map]
  have hp : ((fun kv : String × ℚ => kv.1 == k) ∘ (fun kv : String × ℚ => (kv.1, g kv)))
      = (fun kv : String × ℚ => kv.1 == k) := rfl
  rw [hp]
  cases d.find? (fun kv : String × ℚ => kv.1 == k) <;> rfl

theorem clamp01_nonneg (x : ℚ) : 0 ≤ clamp01 x := le_max_left 0 _

theorem clamp01_le_one (x : ℚ) : clamp01 x ≤ 1 :=
  max_le (by norm_num) (min_le_left 1 x)

theorem clamp01_of_nonneg {x : ℚ} (h : 0 ≤ x) : clamp01 x = min 1 x :=
  max_eq_right (le_min (by norm_num) h)

theorem sum_map_div (l : List (String × ℚ)) (s : ℚ) :
    (l.map (fun kv => kv.2 / s)).sum = (l.map Prod.snd).sum / s := by
  induction l with
  | nil => simp
  | cons x xs ih => simp [ih, add_div]

/-! ## Claim theorems -/

/-- C1 counterexample: the priority dict `{time: 1.005, distance: 0,
carbon_emission: 0, road_quality: 0}` has a nonzero sum, yet the code
leaves it unchanged (the renormalization only fires when the sum is more
than 0.01 away from 1.0), so the weights used for scoring sum to 1.005,
not to 1.0 within 1e-9 — refuting "otherwise every weight is divided by
the sum, regardless of how far from 1.0 the original sum was". -/
theorem resilience_normalization_dead_zone_cex :
    prioritySum cexPriorities ≠ 0 ∧
    normalizePriorities cexPriorities = cexPriorities ∧
    prioritySum (normalizePriorities cexPriorities) = 201/200 ∧
    ¬ |prioritySum (normalizePriorities cexPriorities) - 1| ≤ 1/1000000000 := by
  have h1 : prioritySum cexPriorities = 201/200 := by
    norm_num [prioritySum, cexPriorities]
  have habs : |prioritySum cexPriorities - 1| = 1/200 := by
    rw [h1, show (201 : ℚ)/200 - 1 = 1/200 by norm_num,
      abs_of_nonneg (by norm_num : (0 : ℚ) ≤ 1/200)]
  have h2 : normalizePriorities cexPriorities = cexPriorities := by
    unfold normalizePriorities
    rw [if_neg (by rw [h1]; norm_num), if_neg (by rw [habs]; norm_num)]
  refine ⟨by rw [h1]; norm_num, h2, by rw [h2, h1], ?_⟩
  rw [h2, habs]
  norm_num

/-- C1 (amended): in `ResilienceCalculator.calculate`, if the raw priority
weights sum to 0 they are replaced by equal weights of 0.25 each; if the
sum is nonzero and differs from 1.0 by more than 0.01, every weight is
divided by the sum and the resulting weights sum exactly to 1; if the sum
is nonzero but within 0.01 of 1.0, the weights are left unchanged. -/
theorem resilience_weight_normalization (p : List (String × ℚ)) :
    (prioritySum p = 0 → normalizePriorities p = equalPriorities) ∧
    (prioritySum p ≠ 0 → 1/100 < |prioritySum p - 1| →
      normalizePriorities p = p.map (fun kv => (kv.1, kv.2 / prioritySum p)) ∧
      prioritySum (normalizePriorities p) = 1) ∧
    (prioritySum p ≠ 0 → |prioritySum p - 1| ≤ 1/100 →
      normalizePriorities p = p) := by
  refine ⟨?_, ?_, ?_⟩
  · intro h
    simp [normalizePriorities, h]
  · intro h0 h1
    have he : normalizePriorities p = p.map (fun kv => (kv.1, kv.2 / prioritySum p)) := by
      unfold normalizePriorities
      rw [if_neg h0, if_pos h1]
    refine ⟨he, ?_⟩
    rw [he]
    have hs : prioritySum (p.map (fun kv => (kv.1, kv.2 / prioritySum p)))
        = prioritySum p / prioritySum p := by
      unfold prioritySum
      rw [List.map_map]
      exact sum_map_div p _
    rw [hs, div_self h0]
  · intro h0 h2
    unfold normalizePriorities
    rw [if_neg h0, if_neg (not_lt.2 h2)]

/-- C1 witness: the spec's own example `{time: 2, distance: 2,
carbon_emission: 0, road_quality: 0}` (sum 4, far from 1) is indeed
renormalized and then sums to 1. -/
theorem resilience_weight_normalization_witness :
    normalizePriorities
        [("time", 2), ("distance", 2), ("carbon_emission", 0), ("road_quality", 0)] =
      [("time", 2), ("distance", 2), ("carbon_emission", 0), ("road_quality", 0)].map
        (fun kv => (kv.1, kv.2 / prioritySum
          [("time", 2), ("distance", 2), ("carbon_emission", 0), ("road_quality", 0)])) ∧
    prioritySum (normalizePriorities
      [("time", 2), ("distance", 2), ("carbon_emission", 0), ("road_quality", 0)]) = 1 :=
  (resilience_weight_normalization
    [("time", 2), ("distance", 2), ("carbon_emission", 0), ("road_quality", 0)]).2.1
    (by norm_num [prioritySum])
    (by
      rw [show prioritySum
          [("time", 2), ("distance", 2), ("carbon_emission", 0), ("road_quality", 0)]
          = 4 by norm_num [prioritySum]]
      rw [show (4 : ℚ) - 1 = 3 by norm_num, abs_of_nonneg (by norm_num : (0 : ℚ) ≤ 3)]
      norm_num)

/-- Transitivity of the descending comparison used by the sort. -/
theorem scoreGE_trans (a b c : RouteScore) :
    scoreGE a b → scoreGE b c → scoreGE a c := by
  simp only [scoreGE, decide_eq_true_eq]
  exact fun hab hbc => le_trans hbc hab

/-- Totality of the descending comparison used by the sort. -/
theorem scoreGE_total (a b : RouteScore) : scoreGE a b || scoreGE b a := by
  simp only [scoreGE, Bool.or_eq_true, decide_eq_true_eq]
  exact (le_total b.overall_resilience_score a.overall_resilience_score)

/-- C2: every route is scored with missing component scores defaulting to
0.5 and overall score `clamp([0,100], 100 · Σ weight_d · score_d)`; the
output is a permutation of the per-route scores, sorted by overall score
descending; and the sort is stable (any equal-score subsequence of the
scored input survives as a subsequence of the output). -/
theorem resilience_scoring_and_ranking
    (routes : List String) (ts ds cs rs p : List (String × ℚ)) :
    (∀ name,
      (appliedScore ts ds cs rs p name).route_name = name ∧
      (appliedScore ts ds cs rs p name).time_score = dictGet ts name (1/2) ∧
      (appliedScore ts ds cs rs p name).distance_score = dictGet ds name (1/2) ∧
      (appliedScore ts ds cs rs p name).carbon_score = dictGet cs name (1/2) ∧
      (appliedScore ts ds cs rs p name).road_quality_score = dictGet rs name (1/2) ∧
      (appliedScore ts ds cs rs p name).overall_resilience_score =
        clamp0100 (100 *
          (dictGet (normalizePriorities p) "time" (1/4) * dictGet ts name (1/2) +
           dictGet (normalizePriorities p) "distance" (1/4) * dictGet ds name (1/2) +
           dictGet (normalizePriorities p) "carbon_emission" (1/4) * dictGet cs name (1/2) +
           dictGet (normalizePriorities p) "road_quality" (1/4) * dictGet rs name (1/2)))) ∧
    (calculate routes ts ds cs rs p).Perm (routes.map (appliedScore ts ds cs rs p)) ∧
    (calculate routes ts ds cs rs p).Pairwise
      (fun a b => b.overall_resilience_score ≤ a.overall_resilience_score) ∧
    (∀ c : List RouteScore,
      c.Sublist (routes.map (appliedScore ts ds cs rs p)) →
      c.Pairwise (fun a b => a.overall_resilience_score = b.overall_resilience_score) →
      c.Sublist (calculate routes ts ds cs rs p)) := by
  have hcal : calculate routes ts ds cs rs p
      = (routes.map (appliedScore ts ds cs rs p)).mergeSort scoreGE := rfl
  refine ⟨?_, ?_, ?_, ?_⟩
  · intro name
    refine ⟨rfl, rfl, rfl, rfl, rfl, ?_⟩
    show clamp0100 (_ * 100) = clamp0100 (100 * _)
    rw [mul_comm]
  · rw [hcal]
    exact List.mergeSort_perm _ _
  · rw [hcal]
    exact (List.sorted_mergeSort scoreGE_trans scoreGE_total _).imp
      (fun h => by simpa [scoreGE] using h)
  · intro c hsub hpair
    rw [hcal]
    exact List.sublist_mergeSort scoreGE_trans scoreGE_total
      (hpair.imp (fun h => by simp [scoreGE, h.ge])) hsub

/-- C2 witness: two routes with no recorded component scores tie at the
default-derived overall score, and the tie keeps the input order — the
scored input list survives unchanged as a subsequence of the output. -/
theorem resilience_scoring_and_ranking_witness :
    (["A", "B"].map (appliedScore [] [] [] [] [])).Sublist
      (calculate ["A", "B"] [] [] [] [] []) := by
  refine (resilience_scoring_and_ranking ["A", "B"] [] [] [] [] []).2.2.2 _
    (List.Sublist.refl _) ?_
  have h : (appliedScore [] [] [] [] [] "A").overall_resilience_score
      = (appliedScore [] [] [] [] [] "B").overall_resilience_score := rfl
  simp [List.pairwise_cons, h]

/-- C10: if the priorities dict has a nonzero sum but omits a dimension
key, the lookup on the pre-processed priorities still yields the 0.25
default (the default is applied after normalization); concretely, with
priorities `{time: 2.0}` and all component scores 1, the applied weights
are (1, 0.25, 0.25, 0.25), the stored contributions sum to 1.75, so the
pre-clamp overall score 175 exceeds 100 and is clamped to 100. -/
theorem resilience_omitted_dimension_default
    (p : List (String × ℚ)) (k : String)
    (hsum : prioritySum p ≠ 0) (hk : dictHasKey p k = false) :
    dictGet (normalizePriorities p) k (1/4) = 1/4 ∧
    ((calculate ["A"] [("A", 1)] [("A", 1)] [("A", 1)] [("A", 1)] [("time", 2)]).map
        (fun r => (r.time_contribution, r.distance_contribution,
          r.carbon_contribution, r.road_contribution)) = [(1, 1/4, 1/4, 1/4)] ∧
      (calculate ["A"] [("A", 1)] [("A", 1)] [("A", 1)] [("A", 1)] [("time", 2)]).map
        (fun r => (r.time_contribution + r.distance_contribution +
          r.carbon_contribution + r.road_contribution) * 100) = [175] ∧
      (calculate ["A"] [("A", 1)] [("A", 1)] [("A", 1)] [("A", 1)] [("time", 2)]).map
        RouteScore.overall_resilience_score = [100] ∧
      (100 : ℚ) < 175) := by
  constructor
  · unfold normalizePriorities
    rw [if_neg hsum]
    by_cases h1 : |prioritySum p - 1| > 1/100
    · rw [if_pos h1]
      refine dictGet_of_not_hasKey ?_ _
      rw [dictHasKey_map_snd]
      exact hk
    · rw [if_neg h1]
      exact dictGet_of_not_hasKey hk _
  · have hnorm : normalizePriorities [("time", 2)] = [("time", 1)] := by
      unfold normalizePriorities
      rw [if_neg (by norm_num [prioritySum]), if_pos (by
        rw [show prioritySum [("time", 2)] = 2 by norm_num [prioritySum],
          show (2 : ℚ) - 1 = 1 by norm_num, abs_of_nonneg (by norm_num : (0 : ℚ) ≤ 1)]
        norm_num)]
      norm_num [prioritySum]
    have hcal : calculate ["A"] [("A", 1)] [("A", 1)] [("A", 1)] [("A", 1)] [("time", 2)]
        = [appliedScore [("A", 1)] [("A", 1)] [("A", 1)] [("A", 1)] [("time", 2)] "A"] := by
      show ([appliedScore [("A", 1)] [("A", 1)] [("A", 1)] [("A", 1)] [("time", 2)] "A"]).mergeSort
          scoreGE = _
      rw [List.mergeSort_singleton]
    rw [hcal]
    simp only [appliedScore, scoreRoute, hnorm, List.map_cons, List.map_nil]
    simp only [dictGet, List.find?, show (("time" == "distance") = false) by decide,
      show (("time" == "carbon_emission") = false) by decide,
      show (("time" == "road_quality") = false) by decide,
      show (("time" == "time") = true) by decide,
      show (("A" == "A") = true) by decide]
    norm_num [clamp0100]

/-- C10 witness: with priorities `{time: 2.0}` (nonzero sum, key
"distance" omitted) the applied distance weight is the 0.25 default. -/
theorem resilience_omitted_dimension_default_witness :
    dictGet (normalizePriorities [("time", 2)]) "distance" (1/4) = 1/4 :=
  (resilience_omitted_dimension_default [("time", 2)] "distance"
    (by norm_num [prioritySum]) (by decide)).1

/-! Fold lemmas for Python `min(list)` / `max(list)`. -/

theorem foldl_min_le_init (xs : List ℚ) (a : ℚ) : xs.foldl min a ≤ a := by
  induction xs generalizing a with
  | nil => exact le_refl a
  | cons x xs ih => exact le_trans (ih (min a x)) (min_le_left a x)

theorem foldl_min_le_mem {x : ℚ} {xs : List ℚ} (h : x ∈ xs) (a : ℚ) :
    xs.foldl min a ≤ x := by
  induction xs generalizing a with
  | nil => cases h
  | cons y ys ih =>
    cases List.mem_cons.1 h with
    | inl hxy =>
      subst hxy
      exact le_trans (foldl_min_le_init ys (min a x)) (min_le_right a x)
    | inr hmem => exact ih hmem (min a y)

theorem foldl_min_mem (xs : List ℚ) (a : ℚ) : xs.foldl min a ∈ a :: xs := by
  induction xs generalizing a with
  | nil => exact List.mem_singleton.2 rfl
  | cons x xs ih =>
    have := ih (min a x)
    rcases List.mem_cons.1 this with h | h
    · rcases min_choice a x with hc | hc
      · exact List.mem_cons.2 (Or.inl (h.trans hc))
      · exact List.mem_cons.2 (Or.inr (List.mem_cons.2 (Or.inl (h.trans hc))))
    · exact List.mem_cons.2 (Or.inr (List.mem_cons.2 (Or.inr h)))

theorem init_le_foldl_max (xs : List ℚ) (a : ℚ) : a ≤ xs.foldl max a := by
  induction xs generalizing a with
  | nil => exact le_refl a
  | cons x xs ih => exact le_trans (le_max_left a x) (ih (max a x))

theorem mem_le_foldl_max {x : ℚ} {xs : List ℚ} (h : x ∈ xs) (a : ℚ) :
    x ≤ xs.foldl max a := by
  induction xs generalizing a with
  | nil => cases h
  | cons y ys ih =>
    cases List.mem_cons.1 h with
    | inl hxy =>
      subst hxy
      exact le_trans (le_max_right a x) (init_le_foldl_max ys (max a x))
    | inr hmem => exact ih hmem (max a y)

theorem foldl_max_mem (xs : List ℚ) (a : ℚ) : xs.foldl max a ∈ a :: xs := by
  induction xs generalizing a with
  | nil => exact List.mem_singleton.2 rfl
  | cons x xs ih =>
    have := ih (max a x)
    rcases List.mem_cons.1 this with h | h
    · rcases max_choice a x with hc | hc
      · exact List.mem_cons.2 (Or.inl (h.trans hc))
      · exact List.mem_cons.2 (Or.inr (List.mem_cons.2 (Or.inl (h.trans hc))))
    · exact List.mem_cons.2 (Or.inr (List.mem_cons.2 (Or.inr h)))

theorem listMin_mem {l : List ℚ} (h : l ≠ []) : listMin l ∈ l := by
  cases l with
  | nil => exact absurd rfl h
  | cons x xs => exact foldl_min_mem xs x

theorem listMin_le {l : List ℚ} {x : ℚ} (h : x ∈ l) : listMin l ≤ x := by
  cases l with
  | nil => cases h
  | cons y ys =>
    cases List.mem_cons.1 h with
    | inl hxy => subst hxy; exact foldl_min_le_init ys x
    | inr hmem => exact foldl_min_le_mem hmem y

theorem listMax_mem {l : List ℚ} (h : l ≠ []) : listMax l ∈ l := by
  cases l with
  | nil => exact absurd rfl h
  | cons x xs => exact foldl_max_mem xs x

theorem le_listMax {l : List ℚ} {x : ℚ} (h : x ∈ l) : x ≤ listMax l := by
  cases l with
  | nil => cases h
  | cons y ys =>
    cases List.mem_cons.1 h with
    | inl hxy => subst hxy; exact init_le_foldl_max ys x
    | inr hmem => exact mem_le_foldl_max hmem y

/-- The min-max-invert score evaluates to 1 at a minimal batch value. -/
theorem minmax_formula_at_min {l : List ℚ} {v : ℚ} (hv : v ∈ l)
    (hmin : ∀ x ∈ l, v ≤ x) :
    clamp01 (if listMax l = listMin l then 1
      else 1 - (v - listMin l) / (listMax l - listMin l)) = 1 := by
  have h1 : listMin l ≤ v := listMin_le hv
  have h2 : v ≤ listMin l := hmin _ (listMin_mem (List.ne_nil_of_mem hv))
  have hveq : v = listMin l := le_antisymm h2 h1
  rw [hveq]
  split_ifs with h
  · norm_num [clamp01]
  · rw [sub_self, zero_div, sub_zero]
    norm_num [clamp01]

/-- The min-max-invert score evaluates to 0 at a maximal batch value when
the batch is not all-equal. -/
theorem minmax_formula_at_max {l : List ℚ} {v : ℚ} (hv : v ∈ l)
    (hmax : ∀ x ∈ l, x ≤ v) (hne : listMax l ≠ listMin l) :
    clamp01 (if listMax l = listMin l then 1
      else 1 - (v - listMin l) / (listMax l - listMin l)) = 0 := by
  have h1 : v ≤ listMax l := le_listMax hv
  have h2 : listMax l ≤ v := hmax _ (listMax_mem (List.ne_nil_of_mem hv))
  have hveq : v = listMax l := le_antisymm h1 h2
  rw [hveq, if_neg hne, div_self (sub_ne_zero.2 hne), sub_self]
  norm_num [clamp01]

/-- C3: for every non-empty batch, the Time and Distance analyzers score
each route `clamp([0,1], 1 − (value − min)/(max − min))` with an all-equal
batch scoring 1.0 everywhere; a route carrying the minimal raw value
scores exactly 1.0, and when the batch is not all-equal a route carrying
the maximal raw value scores exactly 0.0. -/
theorem component_minmax_normalization
    (troutes : List TimeRoute) (droutes : List DistRoute)
    (ht : troutes ≠ []) (hd : droutes ≠ []) :
    (timeAnalyze troutes = troutes.map (fun r =>
      { route_name := r.route_name
        duration_s := r.duration_s.getD 0
        time_score := clamp01
          (if listMax (troutes.map (fun r2 => r2.duration_s.getD 0)) =
              listMin (troutes.map (fun r2 => r2.duration_s.getD 0)) then 1
            else 1 - (r.duration_s.getD 0 -
                listMin (troutes.map (fun r2 => r2.duration_s.getD 0))) /
              (listMax (troutes.map (fun r2 => r2.duration_s.getD 0)) -
                listMin (troutes.map (fun r2 => r2.duration_s.getD 0)))) })) ∧
    (listMax (troutes.map (fun r => r.duration_s.getD 0)) =
        listMin (troutes.map (fun r => r.duration_s.getD 0)) →
      ∀ res ∈ timeAnalyze troutes, res.time_score = 1) ∧
    (∀ res ∈ timeAnalyze troutes,
      (∀ x ∈ troutes.map (fun r => r.duration_s.getD 0), res.duration_s ≤ x) →
      res.time_score = 1) ∧
    (listMax (troutes.map (fun r => r.duration_s.getD 0)) ≠
        listMin (troutes.map (fun r => r.duration_s.getD 0)) →
      ∀ res ∈ timeAnalyze troutes,
        (∀ x ∈ troutes.map (fun r => r.duration_s.getD 0), x ≤ res.duration_s) →
        res.time_score = 0) ∧
    (distanceAnalyze droutes = droutes.map (fun r =>
      { route_name := r.route_name
        distance_m := r.distance_m.getD 0
        distance_km := r.distance_m.getD 0 / 1000
        distance_score := clamp01
          (if listMax (droutes.map (fun r2 => r2.distance_m.getD 0)) =
              listMin (droutes.map (fun r2 => r2.distance_m.getD 0)) then 1
            else 1 - (r.distance_m.getD 0 -
                listMin (droutes.map (fun r2 => r2.distance_m.getD 0))) /
              (listMax (droutes.map (fun r2 => r2.distance_m.getD 0)) -
                listMin (droutes.map (fun r2 => r2.distance_m.getD 0)))) })) ∧
    (listMax (droutes.map (fun r => r.distance_m.getD 0)) =
        listMin (droutes.map (fun r => r.distance_m.getD 0)) →
      ∀ res ∈ distanceAnalyze droutes, res.distance_score = 1) ∧
    (∀ res ∈ distanceAnalyze droutes,
      (∀ x ∈ droutes.map (fun r => r.distance_m.getD 0), res.distance_m ≤ x) →
      res.distance_score = 1) ∧
    (listMax (droutes.map (fun r => r.distance_m.getD 0)) ≠
        listMin (droutes.map (fun r => r.distance_m.getD 0)) →
      ∀ res ∈ distanceAnalyze droutes,
        (∀ x ∈ droutes.map (fun r => r.distance_m.getD 0), x ≤ res.distance_m) →
        res.distance_score = 0) := by
  obtain ⟨tr, trs, rfl⟩ : ∃ r rs, troutes = r :: rs := by
    cases troutes with
    | nil => exact absurd rfl ht
    | cons r rs => exact ⟨r, rs, rfl⟩
  obtain ⟨dr, drs, rfl⟩ : ∃ r rs, droutes = r :: rs := by
    cases droutes with
    | nil => exact absurd rfl hd
    | cons r rs => exact ⟨r, rs, rfl⟩
  have htmap : timeAnalyze (tr :: trs) = (tr :: trs).map (fun r =>
      { route_name := r.route_name
        duration_s := r.duration_s.getD 0
        time_score := clamp01
          (if listMax ((tr :: trs).map (fun r2 => r2.duration_s.getD 0)) =
              listMin ((tr :: trs).map (fun r2 => r2.duration_s.getD 0)) then 1
            else 1 - (r.duration_s.getD 0 -
                listMin ((tr :: trs).map (fun r2 => r2.duration_s.getD 0))) /
              (listMax ((tr :: trs).map (fun r2 => r2.duration_s.getD 0)) -
                listMin ((tr :: trs).map (fun r2 => r2.duration_s.getD 0)))) }) := rfl
  have hdmap : distanceAnalyze (dr :: drs) = (dr :: drs).map (fun r =>
      { route_name := r.route_name
        distance_m := r.distance_m.getD 0
        distance_km := r.distance_m.getD 0 / 1000
        distance_score := clamp01
          (if listMax ((dr :: drs).map (fun r2 => r2.distance_m.getD 0)) =
              listMin ((dr :: drs).map (fun r2 => r2.distance_m.getD 0)) then 1
            else 1 - (r.distance_m.getD 0 -
                listMin ((dr :: drs).map (fun r2 => r2.distance_m.getD 0))) /
              (listMax ((dr :: drs).map (fun r2 => r2.distance_m.getD 0)) -
                listMin ((dr :: drs).map (fun r2 => r2.distance_m.getD 0)))) }) := rfl
  refine ⟨htmap, ?_, ?_, ?_, hdmap, ?_, ?_, ?_⟩
  · intro heq res hres
    rw [htmap] at hres
    obtain ⟨r, _, rfl⟩ := List.mem_map.1 hres
    simp only [if_pos heq]
    norm_num [clamp01]
  · intro res hres hmin
    rw [htmap] at hres
    obtain ⟨r, hr, rfl⟩ := List.mem_map.1 hres
    exact minmax_formula_at_min (List.mem_map_of_mem _ hr) hmin
  · intro hne res hres hmax
    rw [htmap] at hres
    obtain ⟨r, hr, rfl⟩ := List.mem_map.1 hres
    exact minmax_formula_at_max (List.mem_map_of_mem _ hr) hmax hne
  · intro heq res hres
    rw [hdmap] at hres
    obtain ⟨r, _, rfl⟩ := List.mem_map.1 hres
    simp only [if_pos heq]
    norm_num [clamp01]
  · intro res hres hmin
    rw [hdmap] at hres
    obtain ⟨r, hr, rfl⟩ := List.mem_map.1 hres
    exact minmax_formula_at_min (List.mem_map_of_mem _ hr) hmin
  · intro hne res hres hmax
    rw [hdmap] at hres
    obtain ⟨r, hr, rfl⟩ := List.mem_map.1 hres
    exact minmax_formula_at_max (List.mem_map_of_mem _ hr) hmax hne

/-- C3 witness: a three-route batch with durations 1000 < 2000 < 3000 and
distances 100000 < 150000 < 200000 (the spec's end-to-end scenario). -/
theorem component_minmax_normalization_witness :
    (timeAnalyze [⟨"r1", some 1000⟩, ⟨"r2", some 2000⟩, ⟨"r3", some 3000⟩]).map
        TimeResult.time_score = [1, 1/2, 0] ∧
    (distanceAnalyze
        [⟨"r1", some 100000⟩, ⟨"r2", some 150000⟩, ⟨"r3", some 200000⟩]).map
        DistResult.distance_score = [1, 1/2, 0] := by
  have h := component_minmax_normalization
    [⟨"r1", some 1000⟩, ⟨"r2", some 2000⟩, ⟨"r3", some 3000⟩]
    [⟨"r1", some 100000⟩, ⟨"r2", some 150000⟩, ⟨"r3", some 200000⟩]
    (by simp) (by simp)
  rw [h.1, h.2.2.2.2.1]
  constructor
  · simp only [List.map_cons, List.map_nil, List.cons.injEq]
    refine ⟨?_, ?_, ?_, trivial⟩ <;>
      norm_num [listMin, listMax, clamp01]
  · simp only [List.map_cons, List.map_nil, List.cons.injEq]
    refine ⟨?_, ?_, ?_, trivial⟩ <;>
      norm_num [listMin, listMax, clamp01]

/-- The segment count produced by the extraction loop equals the number
of steps passing the keep condition, at any starting id. -/
theorem extractLoop_length (dist : ℚ → ℚ → ℚ → ℚ → ℚ) (steps : List Step) :
    ∀ segment_id : ℕ,
      (extractLoop dist steps segment_id).length = steps.countP keepStep := by
  induction steps with
  | nil => intro segment_id; rfl
  | cons st rest ih =>
    intro segment_id
    rw [List.countP_cons]
    cases hsl : st.start_location with
    | none =>
      simp only [extractLoop, hsl, keepStep]
      rw [ih]
      simp
    | some sl =>
      cases hel : st.end_location with
      | none =>
        simp only [extractLoop, hsl, hel, keepStep]
        rw [ih]
        simp
      | some el =>
        simp only [extractLoop, hsl, hel, keepStep]
        by_cases hz : sl.lat.getD 0 = 0 ∨ sl.lng.getD 0 = 0 ∨
            el.lat.getD 0 = 0 ∨ el.lng.getD 0 = 0
        · rw [if_pos hz, ih]
          simp [hz]
        · rw [if_neg hz]
          simp only [List.length_cons]
          rw [ih]
          simp [hz]

/-- C4 counterexample: a one-step route whose start `(10, 0)` and end
`(10, 1)` are both present and different from the point `(0, 0)` — the
claim says such a step produces a segment — yet the code skips it, since
it tests each of the four coordinate components `== 0` individually and
the start longitude is 0. -/
theorem segmenter_skip_rule_cex :
    extract_segments (fun _ _ _ _ => 0) cexRoute = [] ∧
    cexRoute.steps.map Step.start_location =
      [some { lat := some 10, lng := some 0 }] ∧
    cexRoute.steps.map Step.end_location =
      [some { lat := some 10, lng := some 1 }] ∧
    ((10 : ℚ), (0 : ℚ)) ≠ ((0 : ℚ), (0 : ℚ)) ∧
    ((10 : ℚ), (1 : ℚ)) ≠ ((0 : ℚ), (0 : ℚ)) := by
  refine ⟨?_, rfl, rfl, ?_, ?_⟩
  · show extractLoop _ _ 0 = []
    simp only [cexRoute, extractLoop, Option.getD_some]
    rw [if_pos (by norm_num)]
  · intro h
    exact absurd (congrArg Prod.fst h) (by norm_num)
  · intro h
    exact absurd (congrArg Prod.fst h) (by norm_num)

/-- C4 (amended): in `extract_segments`, a step produces no segment if
and only if its start or end location dict is missing (or empty), or any
one of its four coordinate components (start latitude, start longitude,
end latitude, end longitude) is missing or equal to 0; the number of
segments produced equals the number of steps passing that test. -/
theorem segmenter_skip_rule (dist : ℚ → ℚ → ℚ → ℚ → ℚ) (route : RouteGeom) :
    (extract_segments dist route).length = route.steps.countP keepStep ∧
    ∀ st : Step, keepStep st = true ↔
      ∃ sl el, st.start_location = some sl ∧ st.end_location = some el ∧
        sl.lat.getD 0 ≠ 0 ∧ sl.lng.getD 0 ≠ 0 ∧ el.lat.getD 0 ≠ 0 ∧
        el.lng.getD 0 ≠ 0 := by
  refine ⟨extractLoop_length dist route.steps 0, ?_⟩
  intro st
  cases hsl : st.start_location with
  | none => simp [keepStep, hsl]
  | some sl =>
    cases hel : st.end_location with
    | none => simp [keepStep, hsl, hel]
    | some el =>
      simp only [keepStep, hsl, hel, decide_eq_true_eq, Option.some.injEq]
      constructor
      · intro h
        push_neg at h
        exact ⟨sl, el, rfl, rfl, h.1, h.2.1, h.2.2.1, h.2.2.2⟩
      · rintro ⟨sl2, el2, rfl, rfl, h1, h2, h3, h4⟩
        push_neg
        exact ⟨h1, h2, h3, h4⟩

/-- The road-quality accumulation loop as a sum. -/
theorem weightedQuality_eq_sum (segments : List RoadSegment) (risk : ℚ) :
    weightedQuality segments risk =
      (segments.map (fun seg =>
        max 0 (seg.base_quality - risk * 100) * seg.length_m)).sum := by
  unfold weightedQuality
  have h : ∀ (l : List RoadSegment) (a : ℚ),
      l.foldl (fun acc seg => acc + max 0 (seg.base_quality - risk * 100) * seg.length_m) a
        = a + (l.map (fun seg => max 0 (seg.base_quality - risk * 100) * seg.length_m)).sum := by
    intro l
    induction l with
    | nil => intro a; simp
    | cons x xs ih => intro a; simp [ih, add_assoc]
  rw [h, zero_add]

/-- C5: with a positive total length the road quality score is the
length-weighted mean of `max(0, base_quality − avg_weather_risk·100)`
divided by 100 and clamped to [0,1]; zero total length yields 0.5; and a
route with no segments gets the default result (score 0.5, weather risk
0.5, empty segment list). -/
theorem road_quality_aggregation (name : String) (segments : List RoadSegment)
    (weather_data : Option WeatherSummary) :
    (0 < totalLength segments →
      (calculate_road_quality name segments weather_data).road_quality_score =
        clamp01 ((segments.map (fun seg =>
          max 0 (seg.base_quality -
            (calculate_road_quality name segments weather_data).avg_weather_risk * 100)
          * seg.length_m)).sum / totalLength segments / 100)) ∧
    (totalLength segments = 0 →
      (calculate_road_quality name segments weather_data).road_quality_score = 1/2) ∧
    analyzeRoadRoute name [] weather_data = create_default_result name ∧
    (create_default_result name).road_quality_score = 1/2 ∧
    (create_default_result name).avg_weather_risk = 1/2 ∧
    (create_default_result name).road_segments = [] := by
  refine ⟨?_, ?_, ?_, rfl, rfl, rfl⟩
  · intro h
    show clamp01 (if totalLength segments > 0 then
        weightedQuality segments _ / totalLength segments / 100 else 1/2) = _
    rw [if_pos h, weightedQuality_eq_sum]
    rfl
  · intro h
    show clamp01 (if totalLength segments > 0 then
        weightedQuality segments _ / totalLength segments / 100 else 1/2) = _
    rw [h, if_neg (lt_irrefl 0)]
    norm_num [clamp01]
  · rfl

/-- C5 witness: one motorway segment of length 1000 m and weather risk
0.1 hits the positive-total-length branch. -/
theorem road_quality_aggregation_witness :
    (calculate_road_quality "r" [⟨1000, "motorway", 90⟩]
        (some ⟨1/10⟩)).road_quality_score =
      clamp01 ((([⟨1000, "motorway", 90⟩] : List RoadSegment).map (fun seg =>
        max 0 (seg.base_quality -
          (calculate_road_quality "r" [⟨1000, "motorway", 90⟩]
            (some ⟨1/10⟩)).avg_weather_risk * 100)
        * seg.length_m)).sum / totalLength [⟨1000, "motorway", 90⟩] / 100) :=
  (road_quality_aggregation "r" [⟨1000, "motorway", 90⟩] (some ⟨1/10⟩)).1
    (by norm_num [totalLength])

/-- The sampler always yields coordinates for a non-empty segment list. -/
theorem get_sample_coordinates_isSome {segments : List WSeg}
    (h : segments ≠ []) (n : ℕ) :
    ∃ cs, get_sample_coordinates segments n = some cs := by
  unfold get_sample_coordinates
  by_cases hn : n ≤ 1
  · rw [if_pos hn]
    cases hs : segments.get? (segments.length / 2) with
    | none =>
      rw [List.get?_eq_none] at hs
      have hlt : segments.length / 2 < segments.length :=
        Nat.div_lt_self (List.length_pos.2 h) one_lt_two
      omega
    | some s => exact ⟨_, rfl⟩
  · rw [if_neg hn]
    exact ⟨_, rfl⟩

/-- Means of pointwise-nonnegative quantities are nonnegative. -/
theorem meanBy_nonneg (f : Weather → ℚ) (l : List Weather)
    (h : ∀ w ∈ l, 0 ≤ f w) : 0 ≤ meanBy f l := by
  unfold meanBy
  refine div_nonneg (List.sum_nonneg ?_) (Nat.cast_nonneg _)
  intro x hx
  obtain ⟨w, hw, rfl⟩ := List.mem_map.1 hx
  exact h w hw

/-- C6: on a non-empty segment list the analyzer returns a result whose
visibility, rain and wind risks are the clamped normalized averages
(rain and wind needing only that fetched rainfall and wind speed are
nonnegative, as physical weather data is), each risk lies in [0,1], and
the overall risk is their unweighted mean; the empty segment list gets
the full default result with all risks 0 and default weather values. -/
theorem weather_risk_aggregation (fetch : ℚ × ℚ → Weather)
    (segments : List WSeg)
    (hfetch : ∀ pq : ℚ × ℚ, 0 ≤ (fetch pq).rainfall_mm ∧ 0 ≤ (fetch pq).windspeed)
    (hne : segments ≠ []) :
    (∃ res, weatherAnalyze fetch segments = some res ∧
      res.visibility_risk = clamp01 (1 - res.avg_visibility / 10000) ∧
      res.rain_risk = clamp01 (res.avg_rainfall / 50) ∧
      res.wind_risk = clamp01 (res.avg_windspeed / 25) ∧
      0 ≤ res.visibility_risk ∧ res.visibility_risk ≤ 1 ∧
      0 ≤ res.rain_risk ∧ res.rain_risk ≤ 1 ∧
      0 ≤ res.wind_risk ∧ res.wind_risk ≤ 1 ∧
      res.avg_weather_risk =
        (res.visibility_risk + res.rain_risk + res.wind_risk) / 3) ∧
    weatherAnalyze fetch [] = some weatherDefaultResult ∧
    weatherDefaultResult.visibility_risk = 0 ∧
    weatherDefaultResult.rain_risk = 0 ∧
    weatherDefaultResult.wind_risk = 0 ∧
    weatherDefaultResult.avg_weather_risk = 0 ∧
    weatherDefaultResult.weather_data = [] ∧
    weatherDefaultResult.avg_rainfall = 0 ∧
    weatherDefaultResult.avg_windspeed = 5 ∧
    weatherDefaultResult.avg_visibility = 10000 ∧
    weatherDefaultResult.avg_temperature = 20 ∧
    weatherDefaultResult.avg_cloudcover = 30 := by
  obtain ⟨cs, hcs⟩ := get_sample_coordinates_isSome hne (numSamples segments)
  have hrain : 0 ≤ meanBy Weather.rainfall_mm (cs.map fetch) / 50 := by
    refine div_nonneg (meanBy_nonneg _ _ ?_) (by norm_num)
    intro w hw
    obtain ⟨pq, _, rfl⟩ := List.mem_map.1 hw
    exact (hfetch pq).1
  have hwind : 0 ≤ meanBy Weather.windspeed (cs.map fetch) / 25 := by
    refine div_nonneg (meanBy_nonneg _ _ ?_) (by norm_num)
    intro w hw
    obtain ⟨pq, _, rfl⟩ := List.mem_map.1 hw
    exact (hfetch pq).2
  refine ⟨?_, ?_, rfl, rfl, rfl, rfl, rfl, rfl, rfl, rfl, rfl, rfl⟩
  · unfold weatherAnalyze
    rw [if_neg hne, hcs]
    refine ⟨_, rfl, rfl, ?_, ?_, clamp01_nonneg _, clamp01_le_one _,
      ?_, min_le_left _ _, ?_, min_le_left _ _, rfl⟩
    · exact (clamp01_of_nonneg hrain).symm
    · exact (clamp01_of_nonneg hwind).symm
    · exact le_min (by norm_num) hrain
    · exact le_min (by norm_num) hwind
  · unfold weatherAnalyze
    rw [if_pos rfl]

/-- C6 witness: one 100 m segment with a constant moderate-weather fetch
(2 mm rain, 9000 m visibility, 10 m/s wind). -/
theorem weather_risk_aggregation_witness :
    ∃ res, weatherAnalyze (fun _ => ⟨2, 9000, 10, 20, 30⟩)
        [⟨(0, 0), (2, 4), 100⟩] = some res ∧
      res.visibility_risk = clamp01 (1 - res.avg_visibility / 10000) ∧
      res.rain_risk = clamp01 (res.avg_rainfall / 50) ∧
      res.wind_risk = clamp01 (res.avg_windspeed / 25) ∧
      0 ≤ res.visibility_risk ∧ res.visibility_risk ≤ 1 ∧
      0 ≤ res.rain_risk ∧ res.rain_risk ≤ 1 ∧
      0 ≤ res.wind_risk ∧ res.wind_risk ≤ 1 ∧
      res.avg_weather_risk =
        (res.visibility_risk + res.rain_risk + res.wind_risk) / 3 :=
  (weather_risk_aggregation (fun _ => ⟨2, 9000, 10, 20, 30⟩)
    [⟨(0, 0), (2, 4), 100⟩]
    (fun _ => ⟨by norm_num, by norm_num⟩) (by simp)).1

/-- C7: with the road-network lookup unavailable, segments are classified
by length alone with thresholds 10 km / 5 km / 2 km, and in particular
11,000 m is "motorway", 6,000 m "primary", 3,000 m "secondary" and
1,000 m "tertiary". -/
theorem road_type_fallback_heuristic (length_m : ℚ) :
    (10000 < length_m → estimate_road_type length_m = "motorway") ∧
    (5000 < length_m → length_m ≤ 10000 → estimate_road_type length_m = "primary") ∧
    (2000 < length_m → length_m ≤ 5000 → estimate_road_type length_m = "secondary") ∧
    (length_m ≤ 2000 → estimate_road_type length_m = "tertiary") ∧
    estimate_road_type 11000 = "motorway" ∧
    estimate_road_type 6000 = "primary" ∧
    estimate_road_type 3000 = "secondary" ∧
    estimate_road_type 1000 = "tertiary" := by
  refine ⟨?_, ?_, ?_, ?_, ?_, ?_, ?_, ?_⟩
  · intro h
    unfold estimate_road_type
    rw [if_pos h]
  · intro h1 h2
    unfold estimate_road_type
    rw [if_neg (not_lt.2 h2), if_pos h1]
  · intro h1 h2
    unfold estimate_road_type
    rw [if_neg (not_lt.2 (h2.trans (by norm_num))), if_neg (not_lt.2 h2), if_pos h1]
  · intro h
    unfold estimate_road_type
    rw [if_neg (not_lt.2 (h.trans (by norm_num))),
      if_neg (not_lt.2 (h.trans (by norm_num))), if_neg (not_lt.2 h)]
  · unfold estimate_road_type
    rw [if_pos (by norm_num : (11000 : ℚ) > 10000)]
  · unfold estimate_road_type
    rw [if_neg (by norm_num), if_pos (by norm_num : (6000 : ℚ) > 5000)]
  · unfold estimate_road_type
    rw [if_neg (by norm_num), if_neg (by norm_num),
      if_pos (by norm_num : (3000 : ℚ) > 2000)]
  · unfold estimate_road_type
    rw [if_neg (by norm_num), if_neg (by norm_num), if_neg (by norm_num)]

/-- C7 witness: the 11,000 m segment through the general branch. -/
theorem road_type_fallback_heuristic_witness :
    estimate_road_type 11000 = "motorway" :=
  (road_type_fallback_heuristic 11000).1 (by norm_num)

/-- C8: a route with nonnegative segment lengths totalling under 50 km
requests exactly one sample; a request for one sample returns exactly the
midpoint (coordinate averages) of the middle segment (index ⌊n/2⌋), which
exists; and in particular a single segment yields its own midpoint. -/
theorem weather_sampler_min_samples (segments : List WSeg)
    (hne : segments ≠ []) (hnn : ∀ s ∈ segments, 0 ≤ s.length_m)
    (hshort : wTotalLength segments < 50000) :
    numSamples segments = 1 ∧
    get_sample_coordinates segments 1 =
      (segments.get? (segments.length / 2)).map (fun s => [segMidpoint s]) ∧
    (segments.get? (segments.length / 2)).isSome = true ∧
    ∀ seg : WSeg, get_sample_coordinates [seg] 1 = some [segMidpoint seg] := by
  have htot : 0 ≤ wTotalLength segments := by
    refine List.sum_nonneg ?_
    intro x hx
    obtain ⟨s, hs, rfl⟩ := List.mem_map.1 hx
    exact hnn s hs
  have hdd : wTotalLength segments / 1000 / 50 = wTotalLength segments / 50000 := by
    rw [div_div]
    norm_num
  have hsome : segments.length / 2 < segments.length :=
    Nat.div_lt_self (List.length_pos.2 hne) one_lt_two
  refine ⟨?_, ?_, ?_, ?_⟩
  · unfold numSamples pyInt
    rw [if_pos (by rw [hdd]; positivity)]
    have hfl : ⌊wTotalLength segments / 1000 / 50⌋ = 0 := by
      rw [hdd]
      refine Int.floor_eq_zero_iff.2 ⟨?_, ?_⟩
      · positivity
      · rw [div_lt_one (by norm_num)]
        exact hshort
    rw [hfl]
    rfl
  · unfold get_sample_coordinates
    rw [if_pos (le_refl 1)]
    cases hs : segments.get? (segments.length / 2) with
    | none =>
      rw [List.get?_eq_none] at hs
      omega
    | some s => rfl
  · cases hs : segments.get? (segments.length / 2) with
    | none =>
      rw [List.get?_eq_none] at hs
      omega
    | some s => rfl
  · intro seg
    unfold get_sample_coordinates
    rw [if_pos (le_refl 1)]
    have hz : ([seg] : List WSeg).length / 2 = 0 := by simp
    rw [hz]
    rfl

/-- C8 witness: a single 100 m segment from (0,0) to (2,4). -/
theorem weather_sampler_min_samples_witness :
    numSamples [⟨(0, 0), (2, 4), 100⟩] = 1 ∧
    get_sample_coordinates [⟨(0, 0), (2, 4), 100⟩] 1 =
      some [segMidpoint ⟨(0, 0), (2, 4), 100⟩] := by
  have h := weather_sampler_min_samples [⟨(0, 0), (2, 4), 100⟩]
    (by simp)
    (by
      intro s hs
      rw [List.mem_singleton] at hs
      rw [hs]
      norm_num)
    (by norm_num [wTotalLength])
  exact ⟨h.1, h.2.2.2 _⟩

/-- C9: for any origin or destination coordinate outside the valid
latitude/longitude ranges, `run_analysis` (total, hence non-raising)
returns a structured result with an error string, an empty route list and
`analysis_complete = false`, and the result does not depend on the
downstream analysis (it never runs). -/
theorem validation_error_structured
    (origin_lat origin_lng dest_lat dest_lng : ℚ)
    (analyze1 analyze2 : ℚ × ℚ → ℚ × ℚ → AnalysisResult)
    (hbad : ¬(-90 ≤ origin_lat ∧ origin_lat ≤ 90) ∨
      ¬(-180 ≤ origin_lng ∧ origin_lng ≤ 180) ∨
      ¬(-90 ≤ dest_lat ∧ dest_lat ≤ 90) ∨
      ¬(-180 ≤ dest_lng ∧ dest_lng ≤ 180)) :
    (run_analysis origin_lat origin_lng dest_lat dest_lng analyze1).error.isSome
      = true ∧
    (run_analysis origin_lat origin_lng dest_lat dest_lng analyze1).routes = [] ∧
    (run_analysis origin_lat origin_lng dest_lat dest_lng
      analyze1).analysis_complete = false ∧
    run_analysis origin_lat origin_lng dest_lat dest_lng analyze1 =
      run_analysis origin_lat origin_lng dest_lat dest_lng analyze2 := by
  unfold run_analysis
  split_ifs with h1 h2
  · exact ⟨rfl, rfl, rfl, rfl⟩
  · exact ⟨rfl, rfl, rfl, rfl⟩
  · exfalso
    rw [not_or, not_not, not_not] at h1 h2
    tauto

/-- C9 witness: origin latitude 100 is out of range. -/
theorem validation_error_structured_witness :
    (run_analysis 100 0 0 0 (fun _ _ => ⟨none, ["x"], true⟩)).error.isSome = true ∧
    (run_analysis 100 0 0 0 (fun _ _ => ⟨none, ["x"], true⟩)).routes = [] ∧
    (run_analysis 100 0 0 0
      (fun _ _ => ⟨none, ["x"], true⟩)).analysis_complete = false ∧
    run_analysis 100 0 0 0 (fun _ _ => ⟨none, ["x"], true⟩) =
      run_analysis 100 0 0 0 (fun _ _ => ⟨some "other", [], true⟩) :=
  validation_error_structured 100 0 0 0 _ _
    (Or.inl (by norm_num))
